import Mathlib

/-!
Shallow embedding of the risk scoring engine of the pumpfun risk analyzer
(`backend/services/risk_analyzer.py`).  Python floats are modelled as exact
rationals; Python exceptions are modelled with `Except String`; the provider
calls made inside the fallible per-factor computations are modelled as
`Except`-valued inputs (the source wraps each of them in a try/except).
-/

deriving instance DecidableEq for Except

/-- Risk level enumeration (`models.RiskLevel`). -/
inductive RiskLevel
  | low
  | medium
  | high
  | critical
deriving DecidableEq, Repr

/-- String value of a risk level (`RiskLevel.value` on the Python enum). -/
def RiskLevel.value : RiskLevel → String
  | .low => "low"
  | .medium => "medium"
  | .high => "high"
  | .critical => "critical"

/-- Individual risk factor (`models.RiskFactor`). -/
structure RiskFactor where
  name : String
  description : String
  score : ℚ
  weight : ℚ
  evidence : List String
  recommendation : Option String
deriving DecidableEq, Repr

/-- Token holder record (`models.HolderInfo`); only the fields the risk
computations read are carried. -/
structure HolderInfo where
  address : String
  balance : ℚ
  percentage : ℚ
deriving DecidableEq, Repr

/-- Liquidity record (`models.LiquidityInfo`); `lock_expiry` is kept as the
display text used in the evidence line. -/
structure LiquidityInfo where
  total_liquidity : ℚ
  locked_liquidity : ℚ
  locked_percentage : ℚ
  lock_expiry : Option String
  lp_token_holders : List String
deriving DecidableEq, Repr

/-- Volume record (`models.VolumeInfo`). -/
structure VolumeInfo where
  total_volume_24h : ℚ
  unique_traders : Nat
  wash_trading_score : ℚ
  volume_authenticity : ℚ
  top_traders_percentage : ℚ
deriving DecidableEq, Repr

/-- Social record (`models.SocialInfo`). -/
structure SocialInfo where
  twitter_mentions : Nat
  telegram_members : Nat
  discord_members : Nat
  website_exists : Bool
  domain_age_days : Option Nat
  social_sentiment : Option ℚ
deriving DecidableEq, Repr

/-- The fixed weight table `RiskAnalyzer.risk_weights`. -/
def risk_weights (name : String) : ℚ :=
  if name = "holder_concentration" then 25/100
  else if name = "liquidity_security" then 20/100
  else if name = "volume_authenticity" then 15/100
  else if name = "social_credibility" then 10/100
  else if name = "contract_security" then 15/100
  else if name = "price_stability" then 10/100
  else if name = "trading_patterns" then 5/100
  else 0

/-- The `cumsum` loop of `_calculate_gini_coefficient`: starting at index `i`,
adds `value * (n - i)` for each value (indices as rationals to match the
arithmetic of the source line `cumsum += value * (n - i)`). -/
def rankWeightedSum : List ℚ → ℚ → ℚ → ℚ
  | [], _, _ => 0
  | v :: rest, n, i => v * (n - i) + rankWeightedSum rest n (i + 1)

/-- `RiskAnalyzer._calculate_gini_coefficient`.  The source performs the
division `(2*cumsum)/(n*sum(sorted_values))` unguarded: when the divisor is
zero Python raises `ZeroDivisionError`, modelled by the `.error` branch. -/
def _calculate_gini_coefficient (values : List ℚ) : Except String ℚ :=
  if values.isEmpty ∨ values.length < 2 then .ok 0
  else
    let sorted_values := values.insertionSort (fun a b => a ≤ b)
    let n : ℚ := sorted_values.length
    let cumsum : ℚ := rankWeightedSum sorted_values n 0
    if n * sorted_values.sum = 0 then .error ("float division by zero")
    else .ok ((2 * cumsum) / (n * sorted_values.sum) - (n + 1) / n)

/-- `RiskAnalyzer._calculate_holder_concentration_risk`.  The unguarded Gini
division can raise, hence the `Except` result.  Numeric interpolation in the
evidence strings is modelled with `toString`. -/
def _calculate_holder_concentration_risk (holders : List HolderInfo) :
    Except String RiskFactor :=
  if holders.isEmpty then
    .ok { name := "holder_concentration"
          description := "No holder data available"
          score := 1
          weight := risk_weights ("holder_concentration")
          evidence := ["No holder data found"]
          recommendation := none }
  else
    match _calculate_gini_coefficient (holders.map (fun h => h.balance)) with
    | .error e => .error e
    | .ok gini_coefficient =>
      let top_5_percentage : ℚ := ((holders.take 5).map (fun h => h.percentage)).sum
      let score : ℚ :=
        if top_5_percentage > 80 then 1
        else if top_5_percentage > 60 then 8/10
        else if top_5_percentage > 40 then 6/10
        else 3/10
      let level : String :=
        if top_5_percentage > 80 then "CRITICAL"
        else if top_5_percentage > 60 then "HIGH"
        else if top_5_percentage > 40 then "MEDIUM"
        else "LOW"
      .ok { name := "holder_concentration"
            description := "Token holder concentration analysis (" ++ level ++ ")"
            score := score
            weight := risk_weights ("holder_concentration")
            evidence :=
              ["Top 5 holders control " ++ toString top_5_percentage ++ "% of supply",
               "Gini coefficient: " ++ toString gini_coefficient,
               "Total holders: " ++ toString holders.length]
            recommendation :=
              some (if score > 6/10 then "Consider diversifying token distribution"
                    else "Holder distribution looks healthy") }

/-- `RiskAnalyzer._calculate_liquidity_security_risk`. -/
def _calculate_liquidity_security_risk (liquidity : LiquidityInfo) : RiskFactor :=
  if liquidity.total_liquidity = 0 then
    { name := "liquidity_security"
      description := "No liquidity data available"
      score := 1
      weight := risk_weights ("liquidity_security")
      evidence := ["No liquidity found"]
      recommendation := none }
  else
    let locked_percentage := liquidity.locked_percentage
    let score : ℚ :=
      if locked_percentage < 20 then 1
      else if locked_percentage < 50 then 8/10
      else if locked_percentage < 80 then 5/10
      else 2/10
    let level : String :=
      if locked_percentage < 20 then "CRITICAL"
      else if locked_percentage < 50 then "HIGH"
      else if locked_percentage < 80 then "MEDIUM"
      else "LOW"
    let base_evidence :=
      ["Total liquidity: " ++ toString liquidity.total_liquidity ++ " SOL",
       "Locked percentage: " ++ toString locked_percentage ++ "%",
       "LP token holders: " ++ toString liquidity.lp_token_holders.length]
    { name := "liquidity_security"
      description := "Liquidity security analysis (" ++ level ++ ")"
      score := score
      weight := risk_weights ("liquidity_security")
      evidence :=
        match liquidity.lock_expiry with
        | some expiry => base_evidence ++ ["Lock expires: " ++ expiry]
        | none => base_evidence
      recommendation :=
        some (if score > 6/10 then "Ensure liquidity is properly locked"
              else "Liquidity security looks good") }

/-- `RiskAnalyzer._calculate_volume_authenticity_risk`. -/
def _calculate_volume_authenticity_risk (volume : VolumeInfo) : RiskFactor :=
  let wash_trading_score := volume.wash_trading_score
  let score : ℚ :=
    if wash_trading_score > 8/10 then 1
    else if wash_trading_score > 6/10 then 8/10
    else if wash_trading_score > 4/10 then 5/10
    else 2/10
  let level : String :=
    if wash_trading_score > 8/10 then "CRITICAL"
    else if wash_trading_score > 6/10 then "HIGH"
    else if wash_trading_score > 4/10 then "MEDIUM"
    else "LOW"
  { name := "volume_authenticity"
    description := "Volume authenticity analysis (" ++ level ++ ")"
    score := score
    weight := risk_weights ("volume_authenticity")
    evidence :=
      ["24h volume: " ++ toString volume.total_volume_24h ++ " SOL",
       "Unique traders: " ++ toString volume.unique_traders,
       "Wash trading score: " ++ toString wash_trading_score,
       "Volume authenticity: " ++ toString volume.volume_authenticity]
    recommendation :=
      some (if score > 6/10 then "Volume appears artificial - exercise caution"
            else "Volume appears organic") }

/-- `RiskAnalyzer._calculate_social_credibility_risk`.  The Python truthiness
test `social.domain_age_days and social.domain_age_days > 30` treats both
`None` and `0` as falsy; likewise `social.domain_age_days or -Unknown-` in the
evidence line shows Unknown for both `None` and `0`. -/
def _calculate_social_credibility_risk (social : SocialInfo) : RiskFactor :=
  let social_score : ℚ :=
    (if social.twitter_mentions > 100 then 3/10
     else if social.twitter_mentions > 10 then 1/10 else 0) +
    (if social.telegram_members > 1000 then 3/10
     else if social.telegram_members > 100 then 1/10 else 0) +
    (if social.website_exists then 2/10 else 0) +
    (match social.domain_age_days with
     | some d => if d ≠ 0 ∧ d > 30 then 2/10 else 0
     | none => 0)
  let score : ℚ := max 0 (1 - social_score)
  let level : String :=
    if score > 8/10 then "HIGH"
    else if score > 5/10 then "MEDIUM"
    else "LOW"
  { name := "social_credibility"
    description := "Social credibility analysis (" ++ level ++ ")"
    score := score
    weight := risk_weights ("social_credibility")
    evidence :=
      ["Twitter mentions: " ++ toString social.twitter_mentions,
       "Telegram members: " ++ toString social.telegram_members,
       "Website exists: " ++ toString social.website_exists,
       "Domain age: " ++
         (match social.domain_age_days with
          | some d => if d = 0 then "Unknown" else toString d
          | none => "Unknown") ++ " days"]
    recommendation :=
      some (if score > 6/10 then "Build stronger social media presence"
            else "Social credibility looks good") }

/-- `RiskAnalyzer._calculate_contract_security_risk`.  The provider call
`check_contract_security` is the `Except`-valued input; the try/except of the
source maps a raised exception to the neutral factor. -/
def _calculate_contract_security_risk (security_issues : Except String (List String)) :
    RiskFactor :=
  match security_issues with
  | .error _ =>
    { name := "contract_security"
      description := "Contract security analysis failed"
      score := 1/2
      weight := risk_weights ("contract_security")
      evidence := ["Unable to analyze contract security"]
      recommendation := none }
  | .ok issues =>
    let issue_count := issues.length
    let score : ℚ :=
      if issue_count > 5 then 1
      else if issue_count > 3 then 8/10
      else if issue_count > 1 then 5/10
      else 2/10
    let level : String :=
      if issue_count > 5 then "CRITICAL"
      else if issue_count > 3 then "HIGH"
      else if issue_count > 1 then "MEDIUM"
      else "LOW"
    { name := "contract_security"
      description := "Contract security analysis (" ++ level ++ ")"
      score := score
      weight := risk_weights ("contract_security")
      evidence := if issues.isEmpty then ["No security issues detected"] else issues
      recommendation :=
        some (if score > 6/10 then "Address security concerns before trading"
              else "Contract security looks good") }

/-- `RiskAnalyzer._calculate_price_stability_risk`.  `price_data` is the
`Except`-valued provider call (each entry the price field of a history point);
`npStd` abstracts the external `numpy.std` routine, which is not code of this
repository and is irrational-valued in general. -/
def _calculate_price_stability_risk (npStd : List ℚ → ℚ)
    (price_data : Except String (List ℚ)) : RiskFactor :=
  match price_data with
  | .error _ =>
    { name := "price_stability"
      description := "Price stability analysis failed"
      score := 1/2
      weight := risk_weights ("price_stability")
      evidence := ["Unable to analyze price stability"]
      recommendation := none }
  | .ok prices =>
    if prices.isEmpty ∨ prices.length < 2 then
      { name := "price_stability"
        description := "Insufficient price data"
        score := 1/2
        weight := risk_weights ("price_stability")
        evidence := ["Not enough price history"]
        recommendation := none }
    else
      let mean : ℚ := prices.sum / prices.length
      let volatility : ℚ := if mean > 0 then npStd prices / mean else 1
      let score : ℚ :=
        if volatility > 5/10 then 1
        else if volatility > 3/10 then 8/10
        else if volatility > 1/10 then 5/10
        else 2/10
      let level : String :=
        if volatility > 5/10 then "CRITICAL"
        else if volatility > 3/10 then "HIGH"
        else if volatility > 1/10 then "MEDIUM"
        else "LOW"
      { name := "price_stability"
        description := "Price stability analysis (" ++ level ++ ")"
        score := score
        weight := risk_weights ("price_stability")
        evidence :=
          ["Price volatility: " ++ toString volatility,
           "Price range: " ++ toString ((prices.min?).getD 0) ++ " - " ++
             toString ((prices.max?).getD 0),
           "Data points: " ++ toString prices.length]
        recommendation :=
          some (if score > 6/10 then "High volatility - trade with caution"
                else "Price appears stable") }

/-- Trading pattern flags returned by the provider. -/
structure TradingData where
  rapid_trading : Bool
  coordinated_buying : Bool
  wash_trading : Bool
deriving DecidableEq, Repr

/-- `RiskAnalyzer._calculate_trading_patterns_risk`. -/
def _calculate_trading_patterns_risk (trading_data : Except String TradingData) :
    RiskFactor :=
  match trading_data with
  | .error _ =>
    { name := "trading_patterns"
      description := "Trading patterns analysis failed"
      score := 1/2
      weight := risk_weights ("trading_patterns")
      evidence := ["Unable to analyze trading patterns"]
      recommendation := none }
  | .ok td =>
    let suspicious_patterns : List String :=
      (if td.rapid_trading then ["Rapid trading detected"] else []) ++
      (if td.coordinated_buying then ["Coordinated buying detected"] else []) ++
      (if td.wash_trading then ["Wash trading detected"] else [])
    let issue_count := suspicious_patterns.length
    let score : ℚ :=
      if issue_count > 2 then 1
      else if issue_count > 1 then 8/10
      else if issue_count > 0 then 5/10
      else 2/10
    let level : String :=
      if issue_count > 2 then "CRITICAL"
      else if issue_count > 1 then "HIGH"
      else if issue_count > 0 then "MEDIUM"
      else "LOW"
    { name := "trading_patterns"
      description := "Trading patterns analysis (" ++ level ++ ")"
      score := score
      weight := risk_weights ("trading_patterns")
      evidence :=
        if suspicious_patterns.isEmpty then ["No suspicious patterns detected"]
        else suspicious_patterns
      recommendation :=
        some (if score > 6/10 then "Suspicious trading patterns detected"
              else "Trading patterns appear normal") }

/-- `RiskAnalyzer._calculate_risk_factors`: assembles the seven-entry factor
mapping in source order.  Only the holder concentration computation can raise
(unguarded Gini division); the three provider-backed computations catch their
own failures. -/
def _calculate_risk_factors (holders : List HolderInfo) (liquidity : LiquidityInfo)
    (volume : VolumeInfo) (social : SocialInfo) (npStd : List ℚ → ℚ)
    (security_issues : Except String (List String))
    (price_data : Except String (List ℚ))
    (trading_data : Except String TradingData) :
    Except String (List (String × RiskFactor)) :=
  match _calculate_holder_concentration_risk holders with
  | .error e => .error e
  | .ok holder_concentration =>
    .ok [("holder_concentration", holder_concentration),
         ("liquidity_security", _calculate_liquidity_security_risk liquidity),
         ("volume_authenticity", _calculate_volume_authenticity_risk volume),
         ("social_credibility", _calculate_social_credibility_risk social),
         ("contract_security", _calculate_contract_security_risk security_issues),
         ("price_stability", _calculate_price_stability_risk npStd price_data),
         ("trading_patterns", _calculate_trading_patterns_risk trading_data)]

/-- The tier band chain shared verbatim by `_calculate_risk_score` (lines
607-614) and `quick_risk_check` (lines 699-706): both run the identical
`>= 0.8 / >= 0.6 / >= 0.4 / else` cascade. -/
def scoreToRiskLevel (s : ℚ) : RiskLevel :=
  if s ≥ 8/10 then .critical
  else if s ≥ 6/10 then .high
  else if s ≥ 4/10 then .medium
  else .low

/-- Rank of a risk level in the documented ordinal order low < medium < high
< critical. -/
def levelRank : RiskLevel → Nat
  | .low => 0
  | .medium => 1
  | .high => 2
  | .critical => 3

/-- `RiskAnalyzer._calculate_risk_score` over the values of the factor
mapping. -/
def _calculate_risk_score (risk_factors : List RiskFactor) : ℚ × RiskLevel :=
  let total_score : ℚ := (risk_factors.map (fun f => f.score * f.weight)).sum
  let total_weight : ℚ := (risk_factors.map (fun f => f.weight)).sum
  let normalized_score : ℚ := if total_weight > 0 then total_score / total_weight else 1/2
  (normalized_score, scoreToRiskLevel normalized_score)

/-- `RiskAnalyzer._calculate_confidence`: 1.0 per factor with non-empty
evidence, 0.5 per factor without, averaged; 0.5 for an empty mapping. -/
def _calculate_confidence (risk_factors : List RiskFactor) : ℚ :=
  let confidence_factors : List ℚ :=
    risk_factors.map (fun f => if f.evidence.isEmpty then 1/2 else 1)
  if confidence_factors.isEmpty then 1/2
  else confidence_factors.sum / confidence_factors.length

/-- A value of the `factors` dict of a `TokenRisk`: either a serialized
`RiskFactor` (from `.dict()`) or plain text (the error entry of the fallback
path of `quick_risk_check`). -/
inductive FactorValue
  | factor (f : RiskFactor)
  | text (s : String)
deriving DecidableEq, Repr

/-- Whether a `FactorValue` is a serialized factor dict. -/
def FactorValue.isFactor : FactorValue → Bool
  | .factor _ => true
  | .text _ => false

/-- `models.TokenRisk` (timestamps omitted). -/
structure TokenRisk where
  token_address : String
  risk_level : RiskLevel
  risk_score : ℚ
  confidence : ℚ
  factors : List (String × FactorValue)
deriving DecidableEq, Repr

/-- Body of the try block of `RiskAnalyzer.quick_risk_check`: errors escape as
`.error` and are handled by `quick_risk_check` below. -/
def quick_risk_check_core (token_address : String) (holders : List HolderInfo)
    (liquidity : LiquidityInfo) : Except String TokenRisk :=
  match _calculate_holder_concentration_risk holders with
  | .error e => .error e
  | .ok holder_concentration =>
    let liquidity_security := _calculate_liquidity_security_risk liquidity
    let risk_score : ℚ := holder_concentration.score * holder_concentration.weight +
      liquidity_security.score * liquidity_security.weight
    .ok { token_address := token_address
          risk_level := scoreToRiskLevel risk_score
          risk_score := risk_score
          confidence := 7/10
          factors := [("holder_concentration", .factor holder_concentration),
                      ("liquidity_security", .factor liquidity_security)] }

/-- `RiskAnalyzer.quick_risk_check`: the enclosing try/except returns the
medium/0.5/0.0 fallback with an error-text factors dict on any raised
exception. -/
def quick_risk_check (token_address : String) (holders : List HolderInfo)
    (liquidity : LiquidityInfo) : TokenRisk :=
  match quick_risk_check_core token_address holders liquidity with
  | .ok risk => risk
  | .error e =>
    { token_address := token_address
      risk_level := .medium
      risk_score := 1/2
      confidence := 0
      factors := [("error", .text e)] }

/-- Alert record handed to `db_service.create_alert` (`models.Alert` fields
set by `check_for_alerts`). -/
structure Alert where
  token_address : String
  alert_type : String
  risk_level : RiskLevel
  title : String
  description : String
  severity : Nat
deriving DecidableEq, Repr

/-- Dict lookup `factors[name]` guarded by `name in factors`. -/
def lookupFactor (factors : List (String × FactorValue)) (name : String) :
    Option FactorValue :=
  match factors.find? (fun kv => kv.1 = name) with
  | some kv => some kv.2
  | none => none

/-- The generic alert created at the first `create_alert` call site of
`check_for_alerts` (severity 5 when critical, else 4). -/
def highRiskAlert (token_address : String) (risk_level : RiskLevel) : Alert :=
  { token_address := token_address
    alert_type := "high_risk"
    risk_level := risk_level
    title := "High Risk Detected: " ++ token_address
    description := "Token " ++ token_address ++ " has been flagged as " ++
      risk_level.value ++ " risk"
    severity := if risk_level = .critical then 5 else 4 }

/-- The alert created at the second `create_alert` call site of
`check_for_alerts`. -/
def holderConcentrationAlert (token_address : String) : Alert :=
  { token_address := token_address
    alert_type := "holder_concentration"
    risk_level := .high
    title := "High Holder Concentration: " ++ token_address
    description := "Token " ++ token_address ++ " has high holder concentration"
    severity := 4 }

/-- The alert created at the third `create_alert` call site of
`check_for_alerts`. -/
def liquidityRemovalAlert (token_address : String) : Alert :=
  { token_address := token_address
    alert_type := "liquidity_removal"
    risk_level := .high
    title := "Liquidity Security Risk: " ++ token_address
    description := "Token " ++ token_address ++ " has liquidity security concerns"
    severity := 4 }

/-- `RiskAnalyzer.check_for_alerts` as the pure rule set: the list of alerts
handed to the store, in source order.  A factor entry that is not a dict would
raise `AttributeError` at the `.get` call in the source; such entries never
occur in a `TokenRisk` built by this program, and the claims about this
function are stated under the hypothesis that every entry is a serialized
factor. -/
def check_for_alerts (token_address : String) (risk : TokenRisk) : List Alert :=
  (if risk.risk_level = .high ∨ risk.risk_level = .critical then
    [highRiskAlert token_address risk.risk_level]
  else []) ++
  (match lookupFactor risk.factors ("holder_concentration") with
   | some (.factor holder_factor) =>
     if holder_factor.score > 8/10 then [holderConcentrationAlert token_address]
     else []
   | _ => []) ++
  (match lookupFactor risk.factors ("liquidity_security") with
   | some (.factor liquidity_factor) =>
     if liquidity_factor.score > 8/10 then [liquidityRemovalAlert token_address]
     else []
   | _ => [])

/-- The TokenRisk of the C8 scenario: tier critical, holder concentration
score 0.85, liquidity security score 0.5. -/
def criticalExampleRisk : TokenRisk :=
  { token_address := "tok"
    risk_level := .critical
    risk_score := 9/10
    confidence := 7/10
    factors :=
      [("holder_concentration", .factor
          { name := "holder_concentration", description := "d", score := 85/100,
            weight := 25/100, evidence := ["e"], recommendation := none }),
       ("liquidity_security", .factor
          { name := "liquidity_security", description := "d", score := 5/10,
            weight := 20/100, evidence := ["e"], recommendation := none })] }

/-- A holder with zero balance (C9 and C10 failing input). -/
def zeroHolder : HolderInfo := { address := "z", balance := 0, percentage := 0 }

/-- A liquidity record with no liquidity at all. -/
def emptyLiquidity : LiquidityInfo :=
  { total_liquidity := 0, locked_liquidity := 0, locked_percentage := 0,
    lock_expiry := none, lp_token_holders := [] }

/-- A single holder owning 90 percent (C3 witness input). -/
def whaleHolder : HolderInfo := { address := "w", balance := 90, percentage := 90 }

/-- A single holder owning exactly 80 percent (C3 boundary input). -/
def boundaryHolder : HolderInfo := { address := "b", balance := 80, percentage := 80 }

/-- Concrete valid factor used by the C1 witness. -/
def witnessFactorC1 : RiskFactor :=
  { name := "holder_concentration", description := "d", score := 1/2,
    weight := 25/100, evidence := ["e"], recommendation := none }

/-! Helper lemmas shared by the claim theorems. -/

lemma sum_score_mul_weight_nonneg (l : List RiskFactor)
    (hw : ∀ f ∈ l, 0 ≤ f.weight) (hs : ∀ f ∈ l, 0 ≤ f.score ∧ f.score ≤ 1) :
    0 ≤ (l.map (fun f => f.score * f.weight)).sum := by
  induction l with
  | nil => simp
  | cons a l ih =>
    simp only [List.map_cons, List.sum_cons]
    have ha := hs a (by simp)
    have haw := hw a (by simp)
    have h2 := ih (fun f hf => hw f (by simp [hf])) (fun f hf => hs f (by simp [hf]))
    nlinarith [mul_nonneg ha.1 haw]

lemma sum_score_mul_weight_le (l : List RiskFactor)
    (hw : ∀ f ∈ l, 0 ≤ f.weight) (hs : ∀ f ∈ l, 0 ≤ f.score ∧ f.score ≤ 1) :
    (l.map (fun f => f.score * f.weight)).sum ≤ (l.map (fun f => f.weight)).sum := by
  induction l with
  | nil => simp
  | cons a l ih =>
    simp only [List.map_cons, List.sum_cons]
    have ha := hs a (by simp)
    have haw := hw a (by simp)
    have h2 := ih (fun f hf => hw f (by simp [hf])) (fun f hf => hs f (by simp [hf]))
    have h1 : a.score * a.weight ≤ a.weight := mul_le_of_le_one_left haw ha.2
    linarith

lemma scoreToRiskLevel_bands (s : ℚ) :
    (scoreToRiskLevel s = .critical ↔ 8/10 ≤ s) ∧
    (scoreToRiskLevel s = .high ↔ 6/10 ≤ s ∧ s < 8/10) ∧
    (scoreToRiskLevel s = .medium ↔ 4/10 ≤ s ∧ s < 6/10) ∧
    (scoreToRiskLevel s = .low ↔ s < 4/10) := by
  unfold scoreToRiskLevel
  split_ifs with h1 h2 h3
  · refine ⟨⟨fun _ => h1, fun _ => rfl⟩,
      ⟨fun h => by simp at h, fun h => by exfalso; linarith [h.2]⟩,
      ⟨fun h => by simp at h, fun h => by exfalso; linarith [h.2]⟩,
      ⟨fun h => by simp at h, fun h => by exfalso; linarith⟩⟩
  · rw [not_le] at h1
    refine ⟨⟨fun h => by simp at h, fun h => by exfalso; linarith⟩,
      ⟨fun _ => ⟨h2, h1⟩, fun _ => rfl⟩,
      ⟨fun h => by simp at h, fun h => by exfalso; linarith [h.2]⟩,
      ⟨fun h => by simp at h, fun h => by exfalso; linarith⟩⟩
  · rw [not_le] at h1 h2
    refine ⟨⟨fun h => by simp at h, fun h => by exfalso; linarith⟩,
      ⟨fun h => by simp at h, fun h => by exfalso; linarith [h.1]⟩,
      ⟨fun _ => ⟨h3, h2⟩, fun _ => rfl⟩,
      ⟨fun h => by simp at h, fun h => by exfalso; linarith⟩⟩
  · rw [not_le] at h1 h2 h3
    refine ⟨⟨fun h => by simp at h, fun h => by exfalso; linarith⟩,
      ⟨fun h => by simp at h, fun h => by exfalso; linarith [h.1]⟩,
      ⟨fun h => by simp at h, fun h => by exfalso; linarith [h.1]⟩,
      ⟨fun _ => h3, fun _ => rfl⟩⟩

lemma scoreToRiskLevel_monotone (s t : ℚ) (hst : s ≤ t) :
    levelRank (scoreToRiskLevel s) ≤ levelRank (scoreToRiskLevel t) := by
  unfold scoreToRiskLevel
  split_ifs <;> simp [levelRank] <;> linarith

/-- C1: for every factor mapping with valid fields (weights in `[0,1]`, scores
in `[0,1]`) and positive total weight, the overall risk score is the weighted
average of the factor scores, lies in `[0,1]`, and the tier is exactly the
monotonic `>= 0.8 / >= 0.6 / >= 0.4 / else` banding of the score with no gaps
at the boundaries; an empty factor mapping yields score `0.5`. -/
theorem risk_score_weighted_average_in_range (risk_factors : List RiskFactor)
    (hw : ∀ f ∈ risk_factors, 0 ≤ f.weight ∧ f.weight ≤ 1)
    (hs : ∀ f ∈ risk_factors, 0 ≤ f.score ∧ f.score ≤ 1)
    (hpos : 0 < (risk_factors.map (fun f => f.weight)).sum) :
    (_calculate_risk_score risk_factors).1 =
      (risk_factors.map (fun f => f.score * f.weight)).sum /
        (risk_factors.map (fun f => f.weight)).sum ∧
    0 ≤ (_calculate_risk_score risk_factors).1 ∧
    (_calculate_risk_score risk_factors).1 ≤ 1 ∧
    (_calculate_risk_score risk_factors).2 =
      scoreToRiskLevel (_calculate_risk_score risk_factors).1 ∧
    (∀ s : ℚ,
      (scoreToRiskLevel s = .critical ↔ 8/10 ≤ s) ∧
      (scoreToRiskLevel s = .high ↔ 6/10 ≤ s ∧ s < 8/10) ∧
      (scoreToRiskLevel s = .medium ↔ 4/10 ≤ s ∧ s < 6/10) ∧
      (scoreToRiskLevel s = .low ↔ s < 4/10)) ∧
    (∀ s t : ℚ, s ≤ t →
      levelRank (scoreToRiskLevel s) ≤ levelRank (scoreToRiskLevel t)) ∧
    (_calculate_risk_score []).1 = 1/2 := by
  have hw0 : ∀ f ∈ risk_factors, 0 ≤ f.weight := fun f hf => (hw f hf).1
  have hnum0 := sum_score_mul_weight_nonneg risk_factors hw0 hs
  have hnumle := sum_score_mul_weight_le risk_factors hw0 hs
  have hscore : (_calculate_risk_score risk_factors).1 =
      (risk_factors.map (fun f => f.score * f.weight)).sum /
        (risk_factors.map (fun f => f.weight)).sum := by
    simp only [_calculate_risk_score]
    rw [if_pos hpos]
  refine ⟨hscore, ?_, ?_, ?_, scoreToRiskLevel_bands, scoreToRiskLevel_monotone, ?_⟩
  · rw [hscore]; exact div_nonneg hnum0 (le_of_lt hpos)
  · rw [hscore]; exact (div_le_one hpos).mpr hnumle
  · simp only [_calculate_risk_score]
  · simp [_calculate_risk_score]

/-- Witness for C1 at a concrete one-factor mapping. -/
theorem risk_score_weighted_average_in_range_witness :
    (∀ f ∈ [witnessFactorC1], 0 ≤ f.weight ∧ f.weight ≤ 1) ∧
    (∀ f ∈ [witnessFactorC1], 0 ≤ f.score ∧ f.score ≤ 1) ∧
    0 < ([witnessFactorC1].map (fun f => f.weight)).sum ∧
    (_calculate_risk_score [witnessFactorC1]).1 =
      ([witnessFactorC1].map (fun f => f.score * f.weight)).sum /
        ([witnessFactorC1].map (fun f => f.weight)).sum :=
  ⟨by with_unfolding_all decide, by with_unfolding_all decide, by with_unfolding_all decide,
    (risk_score_weighted_average_in_range _
      (by with_unfolding_all decide) (by with_unfolding_all decide)
      (by with_unfolding_all decide)).1⟩

lemma confidence_map_sum (l : List RiskFactor) :
    (l.map (fun f => if f.evidence.isEmpty then (1:ℚ)/2 else 1)).sum =
      (l.countP (fun f => !f.evidence.isEmpty) : ℚ) * 1 +
        (l.countP (fun f => f.evidence.isEmpty) : ℚ) * (1/2) := by
  induction l with
  | nil => simp
  | cons a l ih =>
    rw [List.map_cons, List.sum_cons, ih, List.countP_cons, List.countP_cons]
    by_cases h : a.evidence.isEmpty
    · rw [if_pos h]
      simp only [h, Bool.not_true, if_false, if_true]
      push_cast
      ring
    · rw [if_neg h]
      simp only [Bool.not_eq_true] at h
      simp only [h, Bool.not_false, if_false, if_true]
      push_cast
      ring

/-- C4 counterexample: with one evidenced factor and one factor with empty
evidence the code returns (1.0 + 0.5)/2 = 0.75, while the claimed formula
(count of evidenced factors) / (total count) would give 1/2. -/
theorem confidence_ratio_counterexample :
    _calculate_confidence
        [{ name := "a", description := "a", score := 0, weight := 0,
           evidence := ["x"], recommendation := none },
         { name := "b", description := "b", score := 0, weight := 0,
           evidence := [], recommendation := none }] = 3/4 ∧
    ¬ _calculate_confidence
        [{ name := "a", description := "a", score := 0, weight := 0,
           evidence := ["x"], recommendation := none },
         { name := "b", description := "b", score := 0, weight := 0,
           evidence := [], recommendation := none }] = 1/2 := by
  with_unfolding_all decide

/-- C4 (amended): the confidence is the average contribution over all factors,
1.0 for each factor with non-empty evidence and 0.5 for each factor without;
it is 0.5 for an empty factor mapping.  (The pure count-with-evidence / total
ratio stated by the claim disagrees with the code as soon as some factor has
empty evidence.) -/
theorem confidence_averages_evidence_contributions (risk_factors : List RiskFactor) :
    _calculate_confidence risk_factors =
      if risk_factors.isEmpty then 1/2
      else ((risk_factors.countP (fun f => !f.evidence.isEmpty) : ℚ) * 1 +
            (risk_factors.countP (fun f => f.evidence.isEmpty) : ℚ) * (1/2)) /
          (risk_factors.length : ℚ) := by
  unfold _calculate_confidence
  cases risk_factors with
  | nil => simp
  | cons a l =>
    rw [if_neg (by simp), if_neg (by simp)]
    rw [confidence_map_sum]
    simp [List.length_map]

lemma rankWeightedSum_replicate (v N : ℚ) :
    ∀ (m : Nat) (i : ℚ), rankWeightedSum (List.replicate m v) N i =
      v * ((m : ℚ) * (N - i) - (m : ℚ) * ((m : ℚ) - 1) / 2)
  | 0, i => by simp [rankWeightedSum]
  | m + 1, i => by
    have ih := rankWeightedSum_replicate v N m (i + 1)
    simp only [List.replicate_succ, rankWeightedSum, ih]
    push_cast
    ring

/-- C5: the Gini computation returns 0.0 for fewer than two balances; for two
or more balances with non-zero total it returns the rank-weighted formula
(2*S)/(n*sum) - (n+1)/n over the ascending sort; and it returns exactly 0 for
any list of n >= 2 equal positive balances. -/
theorem gini_coefficient_formula (values : List ℚ) :
    (values.length < 2 → _calculate_gini_coefficient values = .ok 0) ∧
    (2 ≤ values.length → values.sum ≠ 0 →
      _calculate_gini_coefficient values =
        .ok ((2 * rankWeightedSum (values.insertionSort (fun a b => a ≤ b))
                (values.length : ℚ) 0) /
              ((values.length : ℚ) * values.sum) -
            ((values.length : ℚ) + 1) / (values.length : ℚ))) ∧
    (∀ (n : Nat) (v : ℚ), 2 ≤ n → 0 < v →
      _calculate_gini_coefficient (List.replicate n v) = .ok 0) := by
  refine ⟨?_, ?_, ?_⟩
  · intro hlt
    unfold _calculate_gini_coefficient
    rw [if_pos (Or.inr hlt)]
  · intro hlen hsum
    have hlensort : (values.insertionSort (fun a b => a ≤ b)).length = values.length :=
      List.length_insertionSort _ values
    have hsumsort : (values.insertionSort (fun a b => a ≤ b)).sum = values.sum :=
      (List.perm_insertionSort _ values).sum_eq
    unfold _calculate_gini_coefficient
    rw [if_neg, if_neg]
    · rw [hlensort, hsumsort]
    · rw [hlensort, hsumsort]
      intro hmul
      rcases mul_eq_zero.mp hmul with h | h
      · have : values.length = 0 := by exact_mod_cast h
        omega
      · exact hsum h
    · rintro (h | h)
      · have : values = [] := by simpa [List.isEmpty_iff] using h
        subst this
        simp at hlen
      · omega
  · intro n v hn hv
    have hsorted : (List.replicate n v).insertionSort (fun a b => a ≤ b) =
        List.replicate n v :=
      List.Sorted.insertionSort_eq (List.pairwise_replicate.mpr (Or.inr le_rfl))
    have hsum : (List.replicate n v).sum = (n : ℚ) * v := by
      rw [List.sum_replicate, nsmul_eq_mul]
    have hn0 : ((n : ℚ)) ≠ 0 := by
      have : (0 : ℚ) < (n : ℚ) := by exact_mod_cast Nat.lt_of_lt_of_le (by norm_num) hn
      exact ne_of_gt this
    unfold _calculate_gini_coefficient
    rw [if_neg, if_neg]
    · rw [hsorted, List.length_replicate, hsum, rankWeightedSum_replicate]
      congr 1
      field_simp
      ring
    · rw [hsorted, List.length_replicate, hsum]
      intro hmul
      rcases mul_eq_zero.mp hmul with h | h
      · exact hn0 h
      · rcases mul_eq_zero.mp h with h2 | h2
        · exact hn0 h2
        · exact (ne_of_gt hv) h2
    · rintro (h | h)
      · have h2 : List.replicate n v = [] := by simpa [List.isEmpty_iff] using h
        have := congrArg List.length h2
        simp at this
        omega
      · rw [List.length_replicate] at h
        omega

/-- Witness for C5 at concrete inputs: two unequal balances obey the formula
and five equal balances of 20 give Gini 0. -/
theorem gini_coefficient_formula_witness :
    (2 ≤ ([1, 3] : List ℚ).length ∧ ([1, 3] : List ℚ).sum ≠ 0 ∧
      _calculate_gini_coefficient [1, 3] =
        .ok ((2 * rankWeightedSum (([1, 3] : List ℚ).insertionSort (fun a b => a ≤ b))
                ((([1, 3] : List ℚ).length : ℚ)) 0) /
              (((([1, 3] : List ℚ).length : ℚ)) * ([1, 3] : List ℚ).sum) -
            ((([1, 3] : List ℚ).length : ℚ) + 1) / (([1, 3] : List ℚ).length : ℚ))) ∧
    (2 ≤ 5 ∧ (0 : ℚ) < 20 ∧
      _calculate_gini_coefficient (List.replicate 5 (20 : ℚ)) = .ok 0) :=
  ⟨⟨by with_unfolding_all decide, by with_unfolding_all decide,
    (gini_coefficient_formula [1, 3]).2.1 (by with_unfolding_all decide)
      (by with_unfolding_all decide)⟩,
   ⟨by decide, by with_unfolding_all decide,
    (gini_coefficient_formula (List.replicate 5 (20 : ℚ))).2.2 5 20 (by decide)
      (by with_unfolding_all decide)⟩⟩

/-- C6: missing-data edge cases — an empty holder list yields the
holder-concentration factor with score 1.0 and no-data evidence; zero total
liquidity yields the liquidity factor with score 1.0 and no-data evidence;
fewer than two price points yield the neutral price factor 0.5 with the
insufficient-data evidence. -/
theorem missing_data_edge_cases :
    (_calculate_holder_concentration_risk [] =
      .ok { name := "holder_concentration"
            description := "No holder data available"
            score := 1
            weight := 25/100
            evidence := ["No holder data found"]
            recommendation := none }) ∧
    (∀ liquidity : LiquidityInfo, liquidity.total_liquidity = 0 →
      (_calculate_liquidity_security_risk liquidity).score = 1 ∧
      (_calculate_liquidity_security_risk liquidity).evidence = ["No liquidity found"]) ∧
    (∀ (npStd : List ℚ → ℚ) (prices : List ℚ), prices.length < 2 →
      (_calculate_price_stability_risk npStd (.ok prices)).score = 1/2 ∧
      (_calculate_price_stability_risk npStd (.ok prices)).evidence =
        ["Not enough price history"]) := by
  refine ⟨by with_unfolding_all decide, ?_, ?_⟩
  · intro liquidity h
    unfold _calculate_liquidity_security_risk
    rw [if_pos h]
    exact ⟨rfl, rfl⟩
  · intro npStd prices h
    simp only [_calculate_price_stability_risk]
    rw [if_pos (Or.inr h)]
    exact ⟨rfl, rfl⟩

/-- Witness for C6 at a concrete zero-liquidity record and an empty price
history. -/
theorem missing_data_edge_cases_witness :
    (({ total_liquidity := 0, locked_liquidity := 0, locked_percentage := 0,
        lock_expiry := none, lp_token_holders := [] } : LiquidityInfo).total_liquidity = 0 ∧
      (_calculate_liquidity_security_risk
        { total_liquidity := 0, locked_liquidity := 0, locked_percentage := 0,
          lock_expiry := none, lp_token_holders := [] }).score = 1) ∧
    (([] : List ℚ).length < 2 ∧
      (_calculate_price_stability_risk (fun _ => 0) (.ok [])).score = 1/2) :=
  ⟨⟨rfl, ((missing_data_edge_cases.2.1
      { total_liquidity := 0, locked_liquidity := 0, locked_percentage := 0,
        lock_expiry := none, lp_token_holders := [] } rfl)).1⟩,
   ⟨by decide, (missing_data_edge_cases.2.2 (fun _ => 0) [] (by decide)).1⟩⟩

/-- C7: when the provider call inside a fallible per-factor computation
raises, the exception is contained there: the factor returned is neutral
(score 0.5) with its fixed weight and the unable-to-analyze evidence, and the
other factors of the seven-entry mapping are computed exactly as they would be
from their own inputs. -/
theorem provider_failure_degrades_locally (e : String) :
    (_calculate_contract_security_risk (.error e) =
      { name := "contract_security"
        description := "Contract security analysis failed"
        score := 1/2
        weight := 15/100
        evidence := ["Unable to analyze contract security"]
        recommendation := none }) ∧
    (∀ npStd : List ℚ → ℚ, _calculate_price_stability_risk npStd (.error e) =
      { name := "price_stability"
        description := "Price stability analysis failed"
        score := 1/2
        weight := 10/100
        evidence := ["Unable to analyze price stability"]
        recommendation := none }) ∧
    (_calculate_trading_patterns_risk (.error e) =
      { name := "trading_patterns"
        description := "Trading patterns analysis failed"
        score := 1/2
        weight := 5/100
        evidence := ["Unable to analyze trading patterns"]
        recommendation := none }) ∧
    (∀ (holders : List HolderInfo) (liquidity : LiquidityInfo) (volume : VolumeInfo)
        (social : SocialInfo) (npStd : List ℚ → ℚ) (e1 e2 e3 : String) (hc : RiskFactor),
      _calculate_holder_concentration_risk holders = .ok hc →
      _calculate_risk_factors holders liquidity volume social npStd
          (.error e1) (.error e2) (.error e3) =
        .ok [("holder_concentration", hc),
             ("liquidity_security", _calculate_liquidity_security_risk liquidity),
             ("volume_authenticity", _calculate_volume_authenticity_risk volume),
             ("social_credibility", _calculate_social_credibility_risk social),
             ("contract_security", _calculate_contract_security_risk (.error e1)),
             ("price_stability", _calculate_price_stability_risk npStd (.error e2)),
             ("trading_patterns", _calculate_trading_patterns_risk (.error e3))]) := by
  have hw1 : risk_weights ("contract_security") = 15/100 := by with_unfolding_all decide
  have hw2 : risk_weights ("price_stability") = 10/100 := by with_unfolding_all decide
  have hw3 : risk_weights ("trading_patterns") = 5/100 := by with_unfolding_all decide
  refine ⟨?_, ?_, ?_, ?_⟩
  · simp only [_calculate_contract_security_risk, hw1]
  · intro npStd
    simp only [_calculate_price_stability_risk, hw2]
  · simp only [_calculate_trading_patterns_risk, hw3]
  · intro holders liquidity volume social npStd e1 e2 e3 hc hok
    unfold _calculate_risk_factors
    rw [hok]

/-- Witness for C7: the factor mapping computed with all three fallible
providers failing, over an empty holder list. -/
theorem provider_failure_degrades_locally_witness :
    _calculate_holder_concentration_risk [] =
      .ok { name := "holder_concentration"
            description := "No holder data available"
            score := 1
            weight := risk_weights ("holder_concentration")
            evidence := ["No holder data found"]
            recommendation := none } ∧
    _calculate_risk_factors []
        { total_liquidity := 0, locked_liquidity := 0, locked_percentage := 0,
          lock_expiry := none, lp_token_holders := [] }
        { total_volume_24h := 0, unique_traders := 0, wash_trading_score := 0,
          volume_authenticity := 0, top_traders_percentage := 0 }
        { twitter_mentions := 0, telegram_members := 0, discord_members := 0,
          website_exists := false, domain_age_days := none, social_sentiment := none }
        (fun _ => 0) (.error ("boom")) (.error ("boom")) (.error ("boom")) =
      .ok [("holder_concentration",
              { name := "holder_concentration"
                description := "No holder data available"
                score := 1
                weight := risk_weights ("holder_concentration")
                evidence := ["No holder data found"]
                recommendation := none }),
           ("liquidity_security", _calculate_liquidity_security_risk
              { total_liquidity := 0, locked_liquidity := 0, locked_percentage := 0,
                lock_expiry := none, lp_token_holders := [] }),
           ("volume_authenticity", _calculate_volume_authenticity_risk
              { total_volume_24h := 0, unique_traders := 0, wash_trading_score := 0,
                volume_authenticity := 0, top_traders_percentage := 0 }),
           ("social_credibility", _calculate_social_credibility_risk
              { twitter_mentions := 0, telegram_members := 0, discord_members := 0,
                website_exists := false, domain_age_days := none, social_sentiment := none }),
           ("contract_security", _calculate_contract_security_risk (.error ("boom"))),
           ("price_stability", _calculate_price_stability_risk (fun _ => 0) (.error ("boom"))),
           ("trading_patterns", _calculate_trading_patterns_risk (.error ("boom")))] :=
  ⟨rfl,
   (provider_failure_degrades_locally ("boom")).2.2.2 [] _ _ _ (fun _ => 0) ("boom") ("boom") ("boom")
     _ rfl⟩

lemma holder_concentration_ok_shape (holders : List HolderInfo) (f : RiskFactor)
    (h : _calculate_holder_concentration_risk holders = .ok f) :
    f.weight = 25/100 ∧
    (f.score = 1 ∨ f.score = 8/10 ∨ f.score = 6/10 ∨ f.score = 3/10) := by
  have hw : risk_weights ("holder_concentration") = 25/100 := by
    with_unfolding_all decide
  unfold _calculate_holder_concentration_risk at h
  split at h
  · injection h with h
    subst h
    exact ⟨hw, Or.inl rfl⟩
  · split at h
    · exact absurd h (by simp)
    · simp only [] at h
      injection h with h
      subst h
      refine ⟨hw, ?_⟩
      simp only []
      split_ifs <;> simp

lemma liquidity_security_shape (liquidity : LiquidityInfo) :
    (_calculate_liquidity_security_risk liquidity).weight = 20/100 ∧
    ((_calculate_liquidity_security_risk liquidity).score = 1 ∨
     (_calculate_liquidity_security_risk liquidity).score = 8/10 ∨
     (_calculate_liquidity_security_risk liquidity).score = 5/10 ∨
     (_calculate_liquidity_security_risk liquidity).score = 2/10) := by
  have hw : risk_weights ("liquidity_security") = 20/100 := by
    with_unfolding_all decide
  unfold _calculate_liquidity_security_risk
  by_cases h0 : liquidity.total_liquidity = 0
  · rw [if_pos h0]
    exact ⟨hw, Or.inl rfl⟩
  · rw [if_neg h0]
    refine ⟨by simp [hw], ?_⟩
    simp only []
    split_ifs <;> norm_num

lemma quick_core_eq (a : String) (holders : List HolderInfo)
    (liquidity : LiquidityInfo) (hc : RiskFactor)
    (hok : _calculate_holder_concentration_risk holders = .ok hc) :
    quick_risk_check_core a holders liquidity = .ok
      { token_address := a
        risk_level := scoreToRiskLevel (hc.score * hc.weight +
          (_calculate_liquidity_security_risk liquidity).score *
            (_calculate_liquidity_security_risk liquidity).weight)
        risk_score := hc.score * hc.weight +
          (_calculate_liquidity_security_risk liquidity).score *
            (_calculate_liquidity_security_risk liquidity).weight
        confidence := 7/10
        factors := [("holder_concentration", .factor hc),
                    ("liquidity_security",
                      .factor (_calculate_liquidity_security_risk liquidity))] } := by
  unfold quick_risk_check_core
  rw [hok]

lemma quick_core_shape (a : String) (holders : List HolderInfo)
    (liquidity : LiquidityInfo) (r : TokenRisk)
    (hq : quick_risk_check_core a holders liquidity = .ok r) :
    r.risk_score ≤ 45/100 ∧ r.risk_level = scoreToRiskLevel r.risk_score ∧
    r.confidence = 7/10 := by
  unfold quick_risk_check_core at hq
  cases hhc : _calculate_holder_concentration_risk holders with
  | error e => rw [hhc] at hq; exact absurd hq (by simp)
  | ok hcf =>
    rw [hhc] at hq
    simp only [] at hq
    injection hq with hq
    subst hq
    obtain ⟨hw, hs⟩ := holder_concentration_ok_shape holders hcf hhc
    obtain ⟨lw, ls⟩ := liquidity_security_shape liquidity
    refine ⟨?_, rfl, rfl⟩
    simp only []
    rw [hw, lw]
    rcases hs with h | h | h | h <;> rcases ls with h2 | h2 | h2 | h2 <;>
      rw [h, h2] <;> norm_num

lemma quick_level_low_or_medium (a : String) (holders : List HolderInfo)
    (liquidity : LiquidityInfo) :
    (quick_risk_check a holders liquidity).risk_level ≠ .high ∧
    (quick_risk_check a holders liquidity).risk_level ≠ .critical := by
  unfold quick_risk_check
  cases hq : quick_risk_check_core a holders liquidity with
  | error e => simp
  | ok r =>
    obtain ⟨hle, hlev, _⟩ := quick_core_shape a holders liquidity r hq
    simp only []
    rw [hlev]
    unfold scoreToRiskLevel
    split_ifs with h1 h2 h3 <;> refine ⟨?_, ?_⟩ <;> simp <;> linarith

/-- C2: the quick risk check sums the two factor contributions with the fixed
weights 0.25 and 0.20 and does not renormalize, so its score is at most 0.45
and (for any inputs whatsoever) its tier is never high or critical. -/
theorem quick_risk_check_ceiling (a : String) (holders : List HolderInfo)
    (liquidity : LiquidityInfo) (hc : RiskFactor)
    (hok : _calculate_holder_concentration_risk holders = .ok hc) :
    (quick_risk_check a holders liquidity).risk_score =
      hc.score * (25/100) +
        (_calculate_liquidity_security_risk liquidity).score * (20/100) ∧
    (quick_risk_check a holders liquidity).risk_score ≤ 45/100 ∧
    (∀ (a2 : String) (holders2 : List HolderInfo) (liquidity2 : LiquidityInfo),
      (quick_risk_check a2 holders2 liquidity2).risk_level ≠ .high ∧
      (quick_risk_check a2 holders2 liquidity2).risk_level ≠ .critical) := by
  obtain ⟨hw, hs⟩ := holder_concentration_ok_shape holders hc hok
  obtain ⟨lw, ls⟩ := liquidity_security_shape liquidity
  have hq : quick_risk_check a holders liquidity =
      { token_address := a
        risk_level := scoreToRiskLevel (hc.score * hc.weight +
          (_calculate_liquidity_security_risk liquidity).score *
            (_calculate_liquidity_security_risk liquidity).weight)
        risk_score := hc.score * hc.weight +
          (_calculate_liquidity_security_risk liquidity).score *
            (_calculate_liquidity_security_risk liquidity).weight
        confidence := 7/10
        factors := [("holder_concentration", .factor hc),
                    ("liquidity_security",
                      .factor (_calculate_liquidity_security_risk liquidity))] } := by
    unfold quick_risk_check
    rw [quick_core_eq a holders liquidity hc hok]
  refine ⟨?_, ?_, fun a2 holders2 liquidity2 => quick_level_low_or_medium a2 holders2 liquidity2⟩
  · rw [hq]
    simp only []
    rw [hw, lw]
  · rw [hq]
    simp only []
    rw [hw, lw]
    rcases hs with h | h | h | h <;> rcases ls with h2 | h2 | h2 | h2 <;>
      rw [h, h2] <;> norm_num

/-- Witness for C2: empty holder list (score 1, weight 0.25) and empty
liquidity (score 1, weight 0.20) reach exactly the 0.45 ceiling, tier
medium. -/
theorem quick_risk_check_ceiling_witness :
    _calculate_holder_concentration_risk [] =
      .ok { name := "holder_concentration"
            description := "No holder data available"
            score := 1
            weight := risk_weights ("holder_concentration")
            evidence := ["No holder data found"]
            recommendation := none } ∧
    (quick_risk_check ("t") [] emptyLiquidity).risk_score ≤ 45/100 ∧
    (quick_risk_check ("t") [] emptyLiquidity).risk_level ≠ RiskLevel.high :=
  ⟨rfl,
   (quick_risk_check_ceiling ("t") [] emptyLiquidity _ rfl).2.1,
   ((quick_risk_check_ceiling ("t") [] emptyLiquidity _ rfl).2.2 ("t") [] emptyLiquidity).1⟩

/-- C3 counterexample: a top-5 combined percentage of exactly 80 falls in the
0.8 band, not the 1.0 critical band, so the lower bound 80 is exclusive, not
inclusive. -/
theorem holder_band_boundary_counterexample :
    (([boundaryHolder].take 5).map (fun h => h.percentage)).sum = 80 ∧
    Except.map RiskFactor.score (_calculate_holder_concentration_risk [boundaryHolder]) =
      .ok (8/10) ∧
    ¬ ((8:ℚ)/10 = 1) := by
  refine ⟨by with_unfolding_all decide, by with_unfolding_all decide, by norm_num⟩

/-- C3 (amended): the per-factor bands of the holder concentration score are
evaluated top-down with strict lower bounds (first match wins): a top-5
percentage of exactly 80 scores 0.8, exactly 60 scores 0.6, and exactly 40
scores 0.3 (the next lower band each time). -/
theorem holder_bands_strict_lower_bounds (holders : List HolderInfo)
    (hne : holders ≠ [])
    (hok : (_calculate_holder_concentration_risk holders).isOk = true) :
    (Except.map RiskFactor.score (_calculate_holder_concentration_risk holders) =
      .ok (if ((holders.take 5).map (fun h => h.percentage)).sum > 80 then 1
           else if ((holders.take 5).map (fun h => h.percentage)).sum > 60 then 8/10
           else if ((holders.take 5).map (fun h => h.percentage)).sum > 40 then 6/10
           else 3/10)) ∧
    (((holders.take 5).map (fun h => h.percentage)).sum = 80 →
      Except.map RiskFactor.score (_calculate_holder_concentration_risk holders) =
        .ok (8/10)) ∧
    (((holders.take 5).map (fun h => h.percentage)).sum = 60 →
      Except.map RiskFactor.score (_calculate_holder_concentration_risk holders) =
        .ok (6/10)) ∧
    (((holders.take 5).map (fun h => h.percentage)).sum = 40 →
      Except.map RiskFactor.score (_calculate_holder_concentration_risk holders) =
        .ok (3/10)) := by
  have hne2 : ¬ (holders.isEmpty = true) := by
    cases holders with
    | nil => simp at hne
    | cons a l => simp
  have hmain : Except.map RiskFactor.score (_calculate_holder_concentration_risk holders) =
      .ok (if ((holders.take 5).map (fun h => h.percentage)).sum > 80 then 1
           else if ((holders.take 5).map (fun h => h.percentage)).sum > 60 then 8/10
           else if ((holders.take 5).map (fun h => h.percentage)).sum > 40 then 6/10
           else 3/10) := by
    unfold _calculate_holder_concentration_risk at hok ⊢
    rw [if_neg hne2] at hok ⊢
    cases hg : _calculate_gini_coefficient (holders.map (fun h => h.balance)) with
    | error e =>
      rw [hg] at hok
      exact Bool.noConfusion hok
    | ok g => rfl
  refine ⟨hmain, ?_, ?_, ?_⟩ <;> intro hb <;> rw [hmain, hb] <;> norm_num

/-- Witness for C3 (amended) at a single holder owning 90 percent. -/
theorem holder_bands_strict_lower_bounds_witness :
    ([whaleHolder] : List HolderInfo) ≠ [] ∧
    (_calculate_holder_concentration_risk [whaleHolder]).isOk = true ∧
    Except.map RiskFactor.score (_calculate_holder_concentration_risk [whaleHolder]) =
      .ok (if (([whaleHolder].take 5).map (fun h => h.percentage)).sum > 80 then 1
           else if (([whaleHolder].take 5).map (fun h => h.percentage)).sum > 60 then 8/10
           else if (([whaleHolder].take 5).map (fun h => h.percentage)).sum > 40 then 6/10
           else 3/10) :=
  ⟨by with_unfolding_all decide, by with_unfolding_all decide,
   (holder_bands_strict_lower_bounds [whaleHolder] (by with_unfolding_all decide)
     (by with_unfolding_all decide)).1⟩

lemma gini_isOk_of_sum_ne (values : List ℚ) (hsum : values.sum ≠ 0) :
    (_calculate_gini_coefficient values).isOk = true := by
  simp only [_calculate_gini_coefficient]
  split_ifs with h1 h2
  · rfl
  · exfalso
    rcases mul_eq_zero.mp h2 with h | h
    · have hl : (values.insertionSort (fun a b => a ≤ b)).length = values.length :=
        List.length_insertionSort _ values
      have hlen0 : values.length = 0 := by
        rw [hl] at h
        exact_mod_cast h
      exact h1 (Or.inr (by omega))
    · rw [(List.perm_insertionSort (fun a b => a ≤ b) values).sum_eq] at h
      exact hsum h
  · rfl

/-- C9 counterexample: two holders whose balances are both zero make the Gini
division a division by zero, which propagates out of the holder concentration
computation. -/
theorem gini_zero_sum_division_counterexample :
    _calculate_gini_coefficient [0, 0] = .error ("float division by zero") ∧
    _calculate_holder_concentration_risk [zeroHolder, zeroHolder] =
      .error ("float division by zero") := by
  refine ⟨by with_unfolding_all decide, by with_unfolding_all decide⟩

/-- C9 (amended): for two or more holders with non-negative balances at least
one of which is positive, the holder concentration computation is total (the
Gini divisor n times sum is non-zero); when every balance is zero the division
divides by zero. -/
theorem holder_concentration_total_when_sum_positive (holders : List HolderInfo)
    (hlen : 2 ≤ holders.length)
    (hnn : ∀ h ∈ holders, 0 ≤ h.balance)
    (hex : ∃ h ∈ holders, 0 < h.balance) :
    (_calculate_holder_concentration_risk holders).isOk = true := by
  obtain ⟨h0, hmem, h0pos⟩ := hex
  have hsum : 0 < (holders.map (fun h => h.balance)).sum := by
    have hle : h0.balance ≤ (holders.map (fun h => h.balance)).sum := by
      refine List.single_le_sum ?_ _ (List.mem_map_of_mem _ hmem)
      intro x hx
      obtain ⟨y, hy, rfl⟩ := List.mem_map.mp hx
      exact hnn y hy
    linarith
  have hgini := gini_isOk_of_sum_ne (holders.map (fun h => h.balance)) (ne_of_gt hsum)
  have hne2 : ¬ (holders.isEmpty = true) := by
    cases holders with
    | nil => simp at hlen
    | cons a l => simp
  unfold _calculate_holder_concentration_risk
  rw [if_neg hne2]
  cases hg : _calculate_gini_coefficient (holders.map (fun h => h.balance)) with
  | error e =>
    rw [hg] at hgini
    exact Bool.noConfusion hgini
  | ok g => rfl

/-- Witness for C9 (amended) at two holders with balances 1 and 0. -/
theorem holder_concentration_total_when_sum_positive_witness :
    2 ≤ ([{ address := "a", balance := 1, percentage := 50 },
          zeroHolder] : List HolderInfo).length ∧
    (_calculate_holder_concentration_risk
      [{ address := "a", balance := 1, percentage := 50 }, zeroHolder]).isOk = true :=
  ⟨by decide,
   holder_concentration_total_when_sum_positive
     [{ address := "a", balance := 1, percentage := 50 }, zeroHolder]
     (by decide) (by with_unfolding_all decide) (by with_unfolding_all decide)⟩

/-- C10: quick_risk_check is total.  When the try-block body raises, the
caller receives the medium / 0.5 / confidence 0.0 fallback whose factors dict
carries only the error text; when it does not raise, the computed TokenRisk
with its fixed confidence 0.7 is returned unchanged. -/
theorem quick_risk_check_never_propagates (a : String) (holders : List HolderInfo)
    (liquidity : LiquidityInfo) :
    (∀ e : String, quick_risk_check_core a holders liquidity = .error e →
      quick_risk_check a holders liquidity =
        { token_address := a
          risk_level := .medium
          risk_score := 1/2
          confidence := 0
          factors := [("error", FactorValue.text e)] }) ∧
    (∀ r : TokenRisk, quick_risk_check_core a holders liquidity = .ok r →
      quick_risk_check a holders liquidity = r) ∧
    ((quick_risk_check_core a holders liquidity).isOk = true →
      (quick_risk_check a holders liquidity).confidence = 7/10) := by
  refine ⟨?_, ?_, ?_⟩
  · intro e he
    unfold quick_risk_check
    rw [he]
  · intro r hr
    unfold quick_risk_check
    rw [hr]
  · intro hok
    cases hq : quick_risk_check_core a holders liquidity with
    | error e =>
      rw [hq] at hok
      exact Bool.noConfusion hok
    | ok r =>
      unfold quick_risk_check
      rw [hq]
      exact (quick_core_shape a holders liquidity r hq).2.2

/-- Witness for C10: the all-zero-balances input takes the failure path and
returns the fallback record; the empty-holders input takes the success path
and keeps confidence 0.7. -/
theorem quick_risk_check_never_propagates_witness :
    quick_risk_check ("t") [zeroHolder, zeroHolder] emptyLiquidity =
      { token_address := "t"
        risk_level := .medium
        risk_score := 1/2
        confidence := 0
        factors := [("error", FactorValue.text ("float division by zero"))] } ∧
    (quick_risk_check ("t") [] emptyLiquidity).confidence = 7/10 :=
  ⟨(quick_risk_check_never_propagates ("t") [zeroHolder, zeroHolder] emptyLiquidity).1
      ("float division by zero") (by with_unfolding_all decide),
   (quick_risk_check_never_propagates ("t") [] emptyLiquidity).2.2
      (by with_unfolding_all decide)⟩

/-- C8: the three alert rules are evaluated independently (not mutually
exclusive): the generic high_risk alert (severity 5 when critical else 4) is
emitted exactly when the tier is high or critical, the holder_concentration
alert (severity 4) exactly when that factor scores above 0.8, and the
liquidity_removal alert (severity 4) exactly when the liquidity factor scores
above 0.8; the critical example risk with holder score 0.85 and liquidity
score 0.5 yields exactly the two alerts, severities 5 and 4. -/
theorem alert_rules_independent (a : String) (risk : TokenRisk)
    (hfac : ∀ kv ∈ risk.factors, (kv.2).isFactor = true) :
    ((check_for_alerts a risk).filter (fun al => al.alert_type = "high_risk") =
      if risk.risk_level = .high ∨ risk.risk_level = .critical then
        [highRiskAlert a risk.risk_level]
      else []) ∧
    ((check_for_alerts a risk).filter (fun al => al.alert_type = "holder_concentration") =
      match lookupFactor risk.factors ("holder_concentration") with
      | some (.factor f) => if f.score > 8/10 then [holderConcentrationAlert a] else []
      | _ => []) ∧
    ((check_for_alerts a risk).filter (fun al => al.alert_type = "liquidity_removal") =
      match lookupFactor risk.factors ("liquidity_security") with
      | some (.factor f) => if f.score > 8/10 then [liquidityRemovalAlert a] else []
      | _ => []) ∧
    (check_for_alerts ("tok") criticalExampleRisk =
      [highRiskAlert ("tok") .critical, holderConcentrationAlert ("tok")]) ∧
    (highRiskAlert ("tok") RiskLevel.critical).severity = 5 ∧
    (holderConcentrationAlert ("tok")).severity = 4 := by
  refine ⟨?_, ?_, ?_, by with_unfolding_all decide,
    by with_unfolding_all decide, by with_unfolding_all decide⟩ <;>
  · unfold check_for_alerts
    rcases lookupFactor risk.factors ("holder_concentration") with _ | (f1 | s1) <;>
      rcases lookupFactor risk.factors ("liquidity_security") with _ | (f2 | s2) <;>
      split_ifs <;>
      simp [highRiskAlert, holderConcentrationAlert, liquidityRemovalAlert,
        List.filter_append, List.filter] <;>
      split_ifs <;>
      simp [List.filter]

/-- Witness for C8 at the critical example risk. -/
theorem alert_rules_independent_witness :
    (∀ kv ∈ criticalExampleRisk.factors, (kv.2).isFactor = true) ∧
    check_for_alerts ("tok") criticalExampleRisk =
      [highRiskAlert ("tok") .critical, holderConcentrationAlert ("tok")] :=
  ⟨by with_unfolding_all decide,
   (alert_rules_independent ("tok") criticalExampleRisk
     (by with_unfolding_all decide)).2.2.2.1⟩
